import Mathlib

/-!
Verification development for a retrieval-augmentation gateway consisting of
three components:

* a PDF page-splitting utility (`lambda_function.py`): page-window chunking;
* a SharePoint ingestion sync (`sharepoint_sync.py`): ACL normalisation and a
  classification heuristic;
* an orchestration API (`orchestration_api.py`): request validation, access
  filter compilation, backend query adapters, hybrid result merging, metadata
  sanitisation, a TTL prompt cache and answer generation.

The Python sources are embedded shallowly: pure functions become Lean
functions; the process-global prompt cache becomes explicit state passing;
calls to external AWS services (Bedrock, Kendra, S3, the generative model)
become explicit `Except`-valued response parameters (an `Except.error` models
the service call raising an exception); Python floats that only ever flow
through comparisons are modelled as exact rationals (`Rat`); wall-clock
timestamps become integer seconds.  Python dicts are modelled as association
lists with unique keys in insertion order; `dictInsert` mirrors dict update
(replace in place or append) and `dictErase` mirrors `del`.
-/

/-- Metadata values carried by document attributes: the sources only ever
store strings, numbers and string lists in metadata mappings. -/
inductive MetaVal where
  | str (s : String)
  | num (n : Int)
  | strList (l : List String)
deriving DecidableEq, Repr

abbrev Metadata := List (String × MetaVal)

deriving instance DecidableEq for Except

/-- Python dict update `m[k] = v`: replace the value in place if the key is
present, otherwise append the pair. -/
def dictInsert {β : Type} (m : List (String × β)) (k : String) (v : β) :
    List (String × β) :=
  match m with
  | [] => [(k, v)]
  | (k0, v0) :: rest =>
      if k0 = k then (k0, v) :: rest else (k0, v0) :: dictInsert rest k v

/-- Python dict lookup `m.get(k)`. -/
def dictLookup {β : Type} (m : List (String × β)) (k : String) : Option β :=
  match m with
  | [] => none
  | (k0, v0) :: rest => if k0 = k then some v0 else dictLookup rest k

/-- Python `del m[k]` (keys are unique in a dict, so removing the first
occurrence is exact). -/
def dictErase {β : Type} (m : List (String × β)) (k : String) :
    List (String × β) :=
  match m with
  | [] => []
  | (k0, v0) :: rest =>
      if k0 = k then rest else (k0, v0) :: dictErase rest k

/-! ## PDF chunking — `lambda_function.py` -/

/-- Fixed page-window size used by `split_pdf_into_chunks`. -/
def pages_per_chunk : Nat := 20

/-- `split_pdf_into_chunks` (lambda_function.py:84): split a paginated
document into `ceil(total_pages / 20)` consecutive page windows; chunk `i`
holds pages `[i*20, min((i+1)*20, total_pages))`.  Pages are modelled by
their content identifiers; `pages[start:end]` is `(drop start).take (end -
start)`. -/
def split_pdf_into_chunks (pages : List Nat) (totalPages : Nat) :
    List (List Nat) :=
  let numChunks := (totalPages + pages_per_chunk - 1) / pages_per_chunk
  (List.range numChunks).map fun chunkIdx =>
    let startPage := chunkIdx * pages_per_chunk
    let endPage := min ((chunkIdx + 1) * pages_per_chunk) totalPages
    (pages.drop startPage).take (endPage - startPage)

/-- The splitting decision of `lambda_handler` (lambda_function.py:39): a PDF
with more than 20 pages is split; otherwise the whole document is moved
unsplit. -/
def process_pdf_pages (pages : List Nat) : List (List Nat) :=
  if pages.length > 20 then split_pdf_into_chunks pages pages.length
  else [pages]

/-! ## ACL normalisation — `sharepoint_sync.py` -/

/-- Python `str.lower()` restricted to ASCII case folding (every
case-sensitive token compared by the sources is plain ASCII), written
structurally on the character list. -/
def pyLower (s : String) : String :=
  String.mk (s.data.map fun c =>
    if 65 ≤ c.toNat ∧ c.toNat ≤ 90 then Char.ofNat (c.toNat + 32) else c)

/-- Per-principal permission detail recorded in `permission_levels`
(sharepoint_sync.py:348). -/
structure PermDetail where
  permissions : List String
  ptype : String
  access : String
  inheritance : String
deriving DecidableEq, Repr

/-- The canonical ACL shape built by the normaliser
(sharepoint_sync.py:315).  `inheritance_info` is declared by the source but
never populated. -/
structure AclData where
  allowed_users : List String
  allowed_groups : List String
  denied_users : List String
  denied_groups : List String
  permission_levels : List (String × PermDetail)
  inheritance_info : List (String × String)
deriving DecidableEq, Repr

def emptyAclData : AclData :=
  { allowed_users := [], allowed_groups := [], denied_users := [],
    denied_groups := [], permission_levels := [], inheritance_info := [] }

/-- A structured V2 ACL entry after JSON decoding, with the source's `.get`
defaults already applied (sharepoint_sync.py:329).  The source key `type` is
rendered `ptype`. -/
structure AclEntry where
  principal : String
  ptype : String
  permissions : List String
  access : String
  inheritance : String
deriving DecidableEq, Repr

/-- Body of the per-entry loop of `parse_sharepoint_acl_v2`
(sharepoint_sync.py:336).  Entries whose `access` is neither `allow` nor
`deny` update none of the four sets; every entry is recorded in
`permission_levels` keyed by principal. -/
def processAclEntry (acc : AclData) (e : AclEntry) : AclData :=
  let acc1 :=
    if pyLower e.access = "allow" then
      if pyLower e.ptype = "group" then
        { acc with allowed_groups := acc.allowed_groups ++ [e.principal] }
      else
        { acc with allowed_users := acc.allowed_users ++ [e.principal] }
    else if pyLower e.access = "deny" then
      if pyLower e.ptype = "group" then
        { acc with denied_groups := acc.denied_groups ++ [e.principal] }
      else
        { acc with denied_users := acc.denied_users ++ [e.principal] }
    else acc
  { acc1 with
      permission_levels :=
        dictInsert acc1.permission_levels e.principal
          ⟨e.permissions, e.ptype, e.access, e.inheritance⟩ }

/-- The `for acl_entry in acl_list` loop: a `none` element models an entry
whose JSON decoding failed and is skipped with a warning. -/
def processAclEntries (acc : AclData) (entries : List (Option AclEntry)) :
    AclData :=
  match entries with
  | [] => acc
  | none :: rest => processAclEntries acc rest
  | some e :: rest => processAclEntries (processAclEntry acc e) rest

/-- `parse_sharepoint_acl_v2` (sharepoint_sync.py:309): process the entries,
then deduplicate the four sets (`list(set(...))` in the source; set iteration
order is unspecified in Python, so the model keeps first occurrences — all
theorems below only use membership). -/
def parse_sharepoint_acl_v2 (aclList : List (Option AclEntry)) : AclData :=
  let d := processAclEntries emptyAclData aclList
  { d with
      allowed_users := d.allowed_users.dedup,
      allowed_groups := d.allowed_groups.dedup,
      denied_users := d.denied_users.dedup,
      denied_groups := d.denied_groups.dedup }

/-! ## Classification heuristic — `sharepoint_sync.py` -/

/-- Public-access indicator groups of `determine_classification_from_acl_v2`
(sharepoint_sync.py:694). -/
def public_indicators_v2 : List String :=
  ["Everyone", "All Users", "Company Users", "All Employees",
   "Authenticated Users"]

/-- Count of principals holding a `full_control` permission
(sharepoint_sync.py:690). -/
def full_control_count (aclData : AclData) : Nat :=
  (aclData.permission_levels.filter fun pd =>
    (pd.2.permissions.map pyLower).contains "full_control").length

/-- Whether a public-equivalent group is among the allowed groups
(sharepoint_sync.py:695). -/
def has_public_access (aclData : AclData) : Bool :=
  public_indicators_v2.any fun g => aclData.allowed_groups.contains g

/-- `determine_classification_from_acl_v2` (sharepoint_sync.py:683). -/
def determine_classification_from_acl_v2 (aclData : AclData) : String :=
  if full_control_count aclData ≤ 2 ∧ aclData.allowed_users.length ≤ 3 then
    "restricted"
  else if full_control_count aclData ≤ 5 ∧ has_public_access aclData = false then
    "confidential"
  else if has_public_access aclData = true then
    "internal"
  else if aclData.allowed_groups.length ≤ 3 then
    "confidential"
  else
    "internal"

/-! ## Metadata sanitisation — `orchestration_api.py` -/

/-- Sensitive metadata fields stripped by `sanitize_metadata`
(orchestration_api.py:553). -/
def sensitive_fields : List String :=
  ["access_users", "access_groups", "internal_id", "processing_metadata"]

/-- `sanitize_metadata` (orchestration_api.py:549): rebuild the mapping
keeping every key not in `sensitive_fields` (dicts preserve insertion order,
so this is a filter). -/
def sanitize_metadata (metadata : Metadata) : Metadata :=
  metadata.filter fun kv => ¬ sensitive_fields.contains kv.1

/-- Sensitive fields stripped by `sanitize_sharepoint_metadata`
(orchestration_api.py:920). -/
def sharepoint_sensitive_fields : List String :=
  ["sharepoint_acl", "sharepoint_groups", "sharepoint_permissions",
   "internal_sharepoint_id", "acl_users", "acl_groups"]

/-- `sanitize_sharepoint_metadata` (orchestration_api.py:916). -/
def sanitize_sharepoint_metadata (metadata : Metadata) : Metadata :=
  metadata.filter fun kv => ¬ sharepoint_sensitive_fields.contains kv.1

/-! ## Access filter compiler — `orchestration_api.py` -/

/-- One `equals` condition of the metadata filter. -/
structure FilterCondition where
  key : String
  value : String
deriving DecidableEq, Repr

/-- `build_access_control_filters` (orchestration_api.py:86): the `orAll`
condition list — direct user access and creator conditions when a user id is
present, one condition per group, and always a trailing public-classification
condition. -/
def build_access_control_filters (userId : String) (userGroups : List String) :
    List FilterCondition :=
  (if userId ≠ "" then
    [⟨"access_users", userId⟩, ⟨"created_by", userId⟩]
   else []) ++
  (userGroups.map fun g => (⟨"access_groups", g⟩ : FilterCondition)) ++
  [⟨"classification", "public"⟩]

/-! ## Prompt cache — `orchestration_api.py`

The cache key is `hashlib.sha256(content).hexdigest()[:16]`; SHA-256 is
embedded below as a pure function on the UTF-8 bytes (it is standard-library
code, reproduced faithfully; no theorem depends on its internals beyond it
being a function of its input string). -/

/-- An apostrophe, written via its code point. -/
def apos : String := String.singleton (Char.ofNat 39)

def w32 : Nat := 4294967296

/-- Right rotation of a 32-bit word represented as a `Nat` below `2^32`. -/
def rotr32 (n x : Nat) : Nat :=
  (x / 2 ^ n + x % 2 ^ n * 2 ^ (32 - n)) % w32

/-- SHA-256 round constants. -/
def sha256K : List Nat :=
  [1116352408, 1899447441, 3049323471, 3921009573,
   961987163, 1508970993, 2453635748, 2870763221,
   3624381080, 310598401, 607225278, 1426881987,
   1925078388, 2162078206, 2614888103, 3248222580,
   3835390401, 4022224774, 264347078, 604807628,
   770255983, 1249150122, 1555081692, 1996064986,
   2554220882, 2821834349, 2952996808, 3210313671,
   3336571891, 3584528711, 113926993, 338241895,
   666307205, 773529912, 1294757372, 1396182291,
   1695183700, 1986661051, 2177026350, 2456956037,
   2730485921, 2820302411, 3259730800, 3345764771,
   3516065817, 3600352804, 4094571909, 275423344,
   430227734, 506948616, 659060556, 883997877,
   958139571, 1322822218, 1537002063, 1747873779,
   1955562222, 2024104815, 2227730452, 2361852424,
   2428436474, 2756734187, 3204031479, 3329325298]

/-- SHA-256 initial hash state. -/
def sha256H0 : List Nat :=
  [1779033703, 3144134277, 1013904242, 2773480762,
   1359893119, 2600822924, 528734635, 1541459225]

/-- Big-endian byte rendering of `n` on `k` bytes. -/
def toBytesBE (k n : Nat) : List Nat :=
  (List.range k).map fun i => n / 2 ^ (8 * (k - 1 - i)) % 256

/-- SHA-256 padding: append `0x80`, zero bytes up to 56 mod 64, then the
bit length on 8 bytes. -/
def shaPad (msg : List Nat) : List Nat :=
  let z := (120 - (msg.length + 1) % 64) % 64
  msg ++ [128] ++ List.replicate z 0 ++ toBytesBE 8 (msg.length * 8)

/-- Pack bytes into big-endian 32-bit words. -/
def bytesToWords (bytes : List Nat) : List Nat :=
  (List.range (bytes.length / 4)).map fun i =>
    bytes.getD (4 * i) 0 * 16777216 + bytes.getD (4 * i + 1) 0 * 65536 +
      bytes.getD (4 * i + 2) 0 * 256 + bytes.getD (4 * i + 3) 0

/-- Message-schedule extension of a 16-word block to 64 words. -/
def shaSchedule (block : List Nat) : List Nat :=
  (List.range 48).foldl
    (fun ws j =>
      let i := j + 16
      let s0 :=
        rotr32 7 (ws.getD (i - 15) 0) ^^^ rotr32 18 (ws.getD (i - 15) 0) ^^^
          ws.getD (i - 15) 0 / 8
      let s1 :=
        rotr32 17 (ws.getD (i - 2) 0) ^^^ rotr32 19 (ws.getD (i - 2) 0) ^^^
          ws.getD (i - 2) 0 / 1024
      ws ++ [(ws.getD (i - 16) 0 + s0 + ws.getD (i - 7) 0 + s1) % w32])
    block

/-- One SHA-256 compression round on the 8-word working state. -/
def shaCompressRound (k w : Nat) (st : List Nat) : List Nat :=
  let a := st.getD 0 0
  let b := st.getD 1 0
  let c := st.getD 2 0
  let d := st.getD 3 0
  let e := st.getD 4 0
  let f := st.getD 5 0
  let g := st.getD 6 0
  let h := st.getD 7 0
  let s1 := rotr32 6 e ^^^ rotr32 11 e ^^^ rotr32 25 e
  let ch := (e &&& f) ^^^ ((e ^^^ 4294967295) &&& g)
  let temp1 := (h + s1 + ch + k + w) % w32
  let s0 := rotr32 2 a ^^^ rotr32 13 a ^^^ rotr32 22 a
  let maj := (a &&& b) ^^^ (a &&& c) ^^^ (b &&& c)
  let temp2 := (s0 + maj) % w32
  [(temp1 + temp2) % w32, a, b, c, (d + temp1) % w32, e, f, g]

/-- Process one 64-byte block. -/
def shaProcessBlock (h : List Nat) (block : List Nat) : List Nat :=
  let w := shaSchedule block
  let st :=
    (List.range 64).foldl
      (fun st i => shaCompressRound (sha256K.getD i 0) (w.getD i 0) st) h
  (List.range 8).map fun i => (h.getD i 0 + st.getD i 0) % w32

/-- SHA-256 of a byte sequence, as eight 32-bit words. -/
def sha256Words (msg : List Nat) : List Nat :=
  let padded := shaPad msg
  ((List.range (padded.length / 64)).map fun i =>
      bytesToWords ((padded.drop (64 * i)).take 64)).foldl
    shaProcessBlock sha256H0

def hexChar (n : Nat) : Char :=
  if n < 10 then Char.ofNat (48 + n) else Char.ofNat (87 + n)

def wordToHex (x : Nat) : String :=
  String.mk ((List.range 8).map fun i => hexChar (x / 16 ^ (7 - i) % 16))

/-- `hashlib.sha256(s.encode()).hexdigest()`: hex digest of the UTF-8
encoding of `s`. -/
def sha256hex (s : String) : String :=
  String.join ((sha256Words (s.toUTF8.toList.map UInt8.toNat)).map wordToHex)

/-- Code-point lexicographic comparison of character lists — the order
Python uses to compare strings. -/
def strLeB : List Char → List Char → Bool
  | [], _ => true
  | _ :: _, [] => false
  | c :: cs, d :: ds =>
      if c.toNat < d.toNat then true
      else if d.toNat < c.toNat then false
      else strLeB cs ds

def strLe (a b : String) : Prop := strLeB a.data b.data = true

instance : DecidableRel strLe := fun a b =>
  inferInstanceAs (Decidable (strLeB a.data b.data = true))

/-- Python `sorted` on strings: lexicographic ascending (modelled by the
structurally recursive `List.insertionSort`). -/
def sortedStrings (l : List String) : List String :=
  l.insertionSort strLe

/-- `generate_cache_key` (orchestration_api.py:365): the first 16 hex digits
of the SHA-256 of `system_prompt + "|" + "|".join(sorted(user_groups))`. -/
def generate_cache_key (systemPrompt : String) (userGroups : List String) :
    String :=
  (sha256hex
      (systemPrompt ++ "|" ++
        String.intercalate "|" (sortedStrings userGroups))).take 16

/-- The prompt-construction artifact stored in the cache by
`retrieve_and_generate_with_caching` (orchestration_api.py:473). -/
structure CachePayload where
  system_prompt : String
  cache_creation_tokens : Int
  user_groups : List String
deriving DecidableEq, Repr

/-- A cache slot: the stored payload plus the write timestamp added by
`store_cached_prompt` (timestamps in integer seconds). -/
structure CacheEntry where
  payload : CachePayload
  timestamp : Int
deriving DecidableEq, Repr

/-- The process-wide `prompt_cache` dict, made explicit. -/
abbrev PromptCache := List (String × CacheEntry)

/-- `get_cached_prompt` (orchestration_api.py:373): return the entry if
present and younger than the TTL; an expired entry is deleted (lazy
eviction); `datetime` subtraction against `timedelta(minutes=ttl)` becomes a
comparison of second differences against `ttl * 60`.  Returns the read
result together with the (possibly updated) cache. -/
def get_cached_prompt (cache : PromptCache) (ttlMinutes now : Int)
    (cacheKey : String) : Option CacheEntry × PromptCache :=
  match dictLookup cache cacheKey with
  | some entry =>
      if now - entry.timestamp < ttlMinutes * 60 then (some entry, cache)
      else (none, dictErase cache cacheKey)
  | none => (none, cache)

/-- `store_cached_prompt` (orchestration_api.py:393). -/
def store_cached_prompt (cache : PromptCache) (now : Int) (cacheKey : String)
    (payload : CachePayload) : PromptCache :=
  dictInsert cache cacheKey { payload := payload, timestamp := now }

/-! ## Prompt constants — `orchestration_api.py`

The instruction templates are reproduced verbatim; apostrophes are spliced in
via `apos`. -/

/-- `get_system_prompt_for_rag` (orchestration_api.py:326). -/
def get_system_prompt_for_rag : String :=
  "You are an expert AI assistant helping users find and analyze information from their organization" ++ apos ++ "s document repository. Your role is to provide accurate, helpful, and contextually relevant responses based on the provided documents.\n\n## Core Responsibilities:\n1. **Document Analysis**: Carefully analyze the provided document excerpts to understand their content, context, and relevance to the user" ++ apos ++ "s query.\n\n2. **Accurate Information Extraction**: Extract and synthesize information from the documents to provide comprehensive answers.\n\n3. **Source Attribution**: Always cite your sources and indicate which documents contain the information you" ++ apos ++ "re referencing.\n\n4. **Access Control Awareness**: Respect that users can only see documents they have permission to access. Never reference or hint at information from documents not provided in the context.\n\n## Response Guidelines:\n- **Be Comprehensive**: Provide thorough answers that address all aspects of the user" ++ apos ++ "s question.\n- **Be Precise**: Use specific information from the documents rather than general knowledge.\n- **Be Transparent**: If information is incomplete or unclear in the provided documents, acknowledge this limitation.\n- **Be Professional**: Maintain a professional, helpful tone appropriate for business contexts.\n\n## Citation Format:\nWhen referencing information from documents, use this format:\n- For direct quotes: \"According to [Document Title/Source], " ++ apos ++ "[exact quote]" ++ apos ++ "\"\n- For paraphrased content: \"Based on [Document Title/Source], [paraphrased information]\"\n- For multiple sources: \"Multiple documents indicate that [information] (Sources: [Doc1], [Doc2])\"\n\n## Handling Limitations:\n- If no relevant documents are provided, clearly state this and suggest the user refine their query.\n- If documents contain conflicting information, present both perspectives and note the discrepancy.\n- If a question requires information not present in the documents, acknowledge this limitation.\n\n## Security and Privacy:\n- Never make assumptions about document access beyond what" ++ apos ++ "s explicitly provided.\n- Don" ++ apos ++ "t reference or allude to documents or information not included in the current context.\n- Maintain confidentiality of sensitive information while providing helpful responses.\n\nYou will be provided with relevant document excerpts and a user query. Analyze the documents carefully and provide a comprehensive, well-cited response."

/-- `get_system_prompt_for_hybrid_rag` (orchestration_api.py:836). -/
def get_system_prompt_for_hybrid_rag : String :=
  "You are an expert AI assistant helping users find and analyze information from their organization" ++ apos ++ "s comprehensive document repository, including both uploaded PDF documents and SharePoint content. Your role is to provide accurate, helpful, and contextually relevant responses based on the provided documents from multiple sources.\n\n## Core Responsibilities:\n1. **Multi-Source Document Analysis**: Carefully analyze document excerpts from both PDF documents (processed through Bedrock) and SharePoint pages/content, understanding their different formats and contexts.\n\n2. **Accurate Information Extraction**: Extract and synthesize information from documents across different sources to provide comprehensive answers.\n\n3. **Source Attribution**: Always cite your sources clearly, distinguishing between PDF documents and SharePoint content, and indicate which specific documents contain the information you" ++ apos ++ "re referencing.\n\n4. **Access Control Awareness**: Respect that users can only see documents they have permission to access based on their SharePoint permissions and document access controls. Never reference information from documents not provided in the context.\n\n## Document Source Types:\n- **PDF Documents**: Processed documents from S3/Bedrock with metadata-based access control\n- **SharePoint Content**: Pages, documents, and content from SharePoint Online with ACL-based access control\n\n## Response Guidelines:\n- **Be Comprehensive**: Provide thorough answers that leverage information from all available sources.\n- **Be Source-Aware**: Clearly distinguish between different types of content (PDFs vs SharePoint pages).\n- **Be Precise**: Use specific information from the documents rather than general knowledge.\n- **Be Transparent**: If information is incomplete or unclear in the provided documents, acknowledge this limitation.\n- **Be Professional**: Maintain a professional, helpful tone appropriate for business contexts.\n\n## Citation Format:\nWhen referencing information from documents, use this format:\n- For PDF documents: \"According to [PDF Document Title], " ++ apos ++ "[exact quote or information]" ++ apos ++ "\"\n- For SharePoint content: \"Based on the SharePoint page " ++ apos ++ "[Page Title]" ++ apos ++ ", [information]\"\n- For multiple sources: \"Multiple sources indicate that [information] (Sources: [PDF Doc], [SharePoint Page])\"\n- When combining sources: \"Information from both PDF documents and SharePoint content shows that [synthesized information]\"\n\n## Handling Multi-Source Information:\n- If information appears in both PDF documents and SharePoint content, synthesize and present a comprehensive view\n- If sources conflict, present both perspectives and note the discrepancy with source attribution\n- Prioritize more recent information when timestamps are available\n\n## Security and Privacy:\n- Never make assumptions about document access beyond what" ++ apos ++ "s explicitly provided\n- Respect SharePoint ACL-based permissions - only reference content that was returned in the search results\n- Don" ++ apos ++ "t reference or allude to documents or information not included in the current context\n- Maintain confidentiality of sensitive information while providing helpful responses\n\nYou will be provided with relevant document excerpts from multiple sources and a user query. Analyze all documents carefully and provide a comprehensive, well-cited response that leverages the full breadth of available information."

/-- The fixed no-authorized-documents response text shared by
`retrieve_and_generate_with_caching` (orchestration_api.py:282) and its
hybrid variant (orchestration_api.py:789). -/
def noDocsMessage : String :=
  "I couldn" ++ apos ++ "t find any relevant documents to answer your question. Please try rephrasing your query or check if you have access to the relevant documents."

/-! ## Backend query adapters — `orchestration_api.py`

Backend service calls are modelled as `Except`-valued response parameters:
`Except.error e` models the boto3 call raising an exception with message
`e`.  Bedrock relevance scores and Kendra score confidences are floats in
the source and are modelled as exact rationals. -/

/-- One raw item of a Bedrock `retrieve` response (`retrievalResults`),
already projected onto the fields the source reads.  The nested
`location` dict is flattened to string pairs. -/
structure BedrockItem where
  contentText : String
  score : Rat
  location : List (String × String)
  metadata : Metadata
deriving DecidableEq, Repr

/-- A processed result dict as built by `retrieve_documents` and
`search_kendra_sharepoint`.  The `source`/`source_type` tags are absent
until `retrieve_documents_hybrid` sets them; the model uses `""` for
absent. -/
structure DocResult where
  content : String
  score : Rat
  location : List (String × String)
  metadata : Metadata
  source : String
  sourceType : String
deriving DecidableEq, Repr

/-- Return shape of `retrieve_documents` (orchestration_api.py:181); the
wall-clock `timestamp` field is omitted. -/
structure RetrieveOutput where
  rtype : String
  query : String
  results : List DocResult
  total_results : Nat
deriving DecidableEq, Repr

/-- `retrieve_documents` (orchestration_api.py:143): process the backend
items (sanitising each metadata mapping) — or re-raise the backend
exception (orchestration_api.py:189-191), modelled by propagating the
error. -/
def retrieve_documents (query : String)
    (metadataFilters : List FilterCondition) (maxResults : Nat)
    (backendResponse : Except String (List BedrockItem)) :
    Except String RetrieveOutput :=
  match backendResponse with
  | Except.error e => Except.error e
  | Except.ok items =>
      let results := items.map fun item =>
        { content := item.contentText, score := item.score,
          location := item.location,
          metadata := sanitize_metadata item.metadata,
          source := "", sourceType := "" }
      Except.ok
        { rtype := "retrieve", query := query, results := results,
          total_results := results.length }

/-- One raw Kendra result item, projected onto the fields the source reads;
attribute values of the four Kendra value kinds are collapsed into
`MetaVal`. -/
structure KendraItem where
  excerptText : String
  titleText : String
  uri : String
  id : String
  itemType : String
  format : String
  scoreConfidence : Int
  attributes : Metadata
deriving DecidableEq, Repr

/-- Return shape of `search_kendra_sharepoint` (orchestration_api.py:761 and
771): the error annotation is `some e` exactly on the recovery path. -/
structure KendraOutput where
  results : List DocResult
  total_results : Nat
  error : Option String
deriving DecidableEq, Repr

/-- The metadata dict built for a Kendra item (orchestration_api.py:747):
the extracted attributes, overlaid with the SharePoint bookkeeping keys. -/
def kendraItemMetadata (item : KendraItem) : Metadata :=
  let base := item.attributes
  let m1 := dictInsert base "sharepoint_type" (MetaVal.str item.itemType)
  let m2 := dictInsert m1 "sharepoint_format" (MetaVal.str item.format)
  let m3 := dictInsert m2 "last_modified"
    ((dictLookup base "Modified").getD (MetaVal.str ""))
  let m4 := dictInsert m3 "author"
    ((dictLookup base "Author").getD (MetaVal.str ""))
  dictInsert m4 "title" (MetaVal.str item.titleText)

/-- `search_kendra_sharepoint` (orchestration_api.py:669): on success,
process the items (normalising the confidence to 0-1 and sanitising the
SharePoint metadata); on a backend exception, recover locally with empty
results and an error annotation (orchestration_api.py:768-775) — no
exception propagates. -/
def search_kendra_sharepoint (query userToken : String) (maxResults : Nat)
    (userId : String) (userGroups : List String)
    (backendResponse : Except String (List KendraItem)) : KendraOutput :=
  match backendResponse with
  | Except.error e => { results := [], total_results := 0, error := some e }
  | Except.ok items =>
      let results := items.map fun item =>
        let content :=
          if item.excerptText ≠ "" then item.excerptText
          else if item.titleText ≠ "" then item.titleText
          else ""
        { content := content,
          score := mkRat item.scoreConfidence 100,
          location :=
            [("uri", item.uri), ("title", item.titleText), ("id", item.id)],
          metadata := sanitize_sharepoint_metadata (kendraItemMetadata item),
          source := "", sourceType := "" }
      { results := results, total_results := results.length, error := none }

/-! ## Hybrid result merger — `orchestration_api.py` -/

/-- The environment toggles consulted by `retrieve_documents_hybrid`
(orchestration_api.py:618 and 634). -/
structure HybridConfig where
  knowledgeBaseId : Option String
  enableSharepointSearch : Bool
  kendraIndexId : Option String
deriving DecidableEq, Repr

/-- Per-backend provenance recorded in `source_info`. -/
structure SourceInfoEntry where
  total_results : Nat
  search_type : String
deriving DecidableEq, Repr

/-- Return shape of `retrieve_documents_hybrid` (orchestration_api.py:655);
the wall-clock `timestamp` field is omitted. -/
structure HybridOutput where
  rtype : String
  query : String
  results : List DocResult
  total_results : Nat
  sources_searched : List String
  source_info : List (String × SourceInfoEntry)
deriving DecidableEq, Repr

/-- Whether the Bedrock backend is searched: `'bedrock' in search_sources
and KNOWLEDGE_BASE_ID`. -/
def bedrockActive (cfg : HybridConfig) (searchSources : List String) : Bool :=
  searchSources.contains "bedrock" && cfg.knowledgeBaseId.isSome

/-- Whether the Kendra SharePoint backend is searched: `'sharepoint' in
search_sources and ENABLE_SHAREPOINT_SEARCH and KENDRA_INDEX_ID`. -/
def sharepointActive (cfg : HybridConfig) (searchSources : List String) :
    Bool :=
  searchSources.contains "sharepoint" && cfg.enableSharepointSearch &&
    cfg.kendraIndexId.isSome

/-- Source/source-type tagging applied to each backend result
(orchestration_api.py:623-625 and 639-641). -/
def tagResults (src stype : String) (rs : List DocResult) : List DocResult :=
  rs.map fun r => { r with source := src, sourceType := stype }

/-- The candidate accumulation phase of `retrieve_documents_hybrid`
(orchestration_api.py:614-647): the `all_results` list (Bedrock results
first, then SharePoint results, each tagged) together with `source_info`.
A Bedrock backend exception propagates (via `retrieve_documents`); a Kendra
exception was already recovered into empty results. -/
def hybridParts (cfg : HybridConfig) (query : String)
    (metadataFilters : List FilterCondition) (maxResults : Nat)
    (searchSources : List String) (userToken userId : String)
    (userGroups : List String)
    (bedrockResponse : Except String (List BedrockItem))
    (kendraResponse : Except String (List KendraItem)) :
    Except String (List DocResult × List (String × SourceInfoEntry)) :=
  match
    (if bedrockActive cfg searchSources then
      (retrieve_documents query metadataFilters maxResults
          bedrockResponse).map
        fun bOut =>
          (tagResults "bedrock" "pdf_documents" bOut.results,
           [("bedrock",
             (⟨bOut.total_results, "vector_semantic"⟩ : SourceInfoEntry))])
    else Except.ok ([], [])) with
  | Except.error e => Except.error e
  | Except.ok (bres, binfo) =>
      let sp :=
        if sharepointActive cfg searchSources then
          let spOut :=
            search_kendra_sharepoint query userToken maxResults userId
              userGroups kendraResponse
          (tagResults "sharepoint" "sharepoint_pages" spOut.results,
           [("sharepoint",
             (⟨spOut.total_results, "kendra_acl_filtered"⟩ :
               SourceInfoEntry))])
        else ([], [])
      Except.ok (bres ++ sp.1, binfo ++ sp.2)

/-- The order under `all_results.sort(key=lambda x: x.get('score', 0),
reverse=True)`: a stable descending sort places `a` before `b` when
`b.score ≤ a.score`. -/
def scoreDesc (a b : DocResult) : Prop := b.score ≤ a.score

instance : DecidableRel scoreDesc := fun a b =>
  inferInstanceAs (Decidable (b.score ≤ a.score))

instance : IsTotal DocResult scoreDesc := ⟨fun a b => le_total b.score a.score⟩

instance : IsTrans DocResult scoreDesc :=
  ⟨fun _ _ _ h1 h2 => le_trans h2 h1⟩

/-- `retrieve_documents_hybrid` (orchestration_api.py:609): accumulate the
tagged per-backend results, sort by score descending, truncate to
`max_results`.  Python list sort is stable; a stable sort of a total
preorder is extensionally unique, and the model uses the structurally
recursive stable sort `List.insertionSort` (stability is witnessed by
`List.pair_sublist_insertionSort` below). -/
def retrieve_documents_hybrid (cfg : HybridConfig) (query : String)
    (metadataFilters : List FilterCondition) (maxResults : Nat)
    (searchSources : List String) (userToken userId : String)
    (userGroups : List String)
    (bedrockResponse : Except String (List BedrockItem))
    (kendraResponse : Except String (List KendraItem)) :
    Except String HybridOutput :=
  match
    hybridParts cfg query metadataFilters maxResults searchSources userToken
      userId userGroups bedrockResponse kendraResponse with
  | Except.error e => Except.error e
  | Except.ok (allResults, sourceInfo) =>
      let finalResults := (allResults.insertionSort scoreDesc).take maxResults
      Except.ok
        { rtype := "retrieve_hybrid", query := query, results := finalResults,
          total_results := finalResults.length,
          sources_searched := searchSources, source_info := sourceInfo }

/-! ## Answer generation — `orchestration_api.py`

The generative-model (Claude) invocation is modelled by an `Except`-valued
response parameter.  String renderings that the source delegates to float
formatting (`:.3f`) and `json.dumps` are abstracted by simple deterministic
renderers — no claim depends on their exact output, only on which data flows
into them. -/

def metaValToString (v : MetaVal) : String :=
  match v with
  | MetaVal.str s => s
  | MetaVal.num n => toString n
  | MetaVal.strList l => "[" ++ String.intercalate ", " l ++ "]"

/-- Abstraction of `json.dumps(metadata, indent=2)`. -/
def renderMetadata (m : Metadata) : String :=
  String.intercalate "\n" (m.map fun kv => kv.1 ++ ": " ++ metaValToString kv.2)

/-- Abstraction of the `:.3f` float rendering of a relevance score. -/
def format_score (s : Rat) : String := toString s

/-- `create_context_from_documents` (orchestration_api.py:496). -/
def create_context_from_documents (docs : List DocResult) : String :=
  String.intercalate "\n" (docs.enum.map fun di =>
    let i := di.1 + 1
    let doc := di.2
    let docTitle :=
      match dictLookup doc.metadata "title" with
      | some v => metaValToString v
      | none =>
          match dictLookup doc.location "s3Location.uri" with
          | some u => u
          | none => "Document " ++ toString i
    "\n## Document " ++ toString i ++ ": " ++ docTitle ++
      "\n**Relevance Score**: " ++ format_score doc.score ++
      "\n**Content**: " ++ doc.content ++
      "\n**Metadata**: " ++ renderMetadata doc.metadata ++ "\n")

/-- `create_context_from_hybrid_documents` (orchestration_api.py:882). -/
def create_context_from_hybrid_documents (docs : List DocResult) : String :=
  String.intercalate "\n" (docs.enum.map fun di =>
    let i := di.1 + 1
    let doc := di.2
    let titleHints :=
      if doc.source = "bedrock" then
        (dictLookup doc.location "s3Location.uri",
         "PDF Document (Bedrock Knowledge Base)", "PDF Document ")
      else if doc.source = "sharepoint" then
        (dictLookup doc.location "title",
         "SharePoint Content (" ++
           (dictLookup doc.location "uri").getD "Unknown URL" ++ ")",
         "SharePoint Document ")
      else (none, "Unknown Source (" ++ doc.source ++ ")", "Document ")
    let docTitle :=
      if doc.source = "bedrock" ∨ doc.source = "sharepoint" then
        match dictLookup doc.metadata "title" with
        | some v => metaValToString v
        | none => (titleHints.1).getD (titleHints.2.2 ++ toString i)
      else "Document " ++ toString i
    "\n## Document " ++ toString i ++ ": " ++ docTitle ++
      "\n**Source**: " ++ titleHints.2.1 ++
      "\n**Relevance Score**: " ++ format_score doc.score ++
      "\n**Content**: " ++ doc.content ++
      "\n**Metadata**: " ++ renderMetadata doc.metadata ++ "\n")

/-- One citation dict built by `create_citations_from_documents`
(orchestration_api.py:520): the full generated response with a 0..len span,
and one retrieved reference whose metadata is sanitised. -/
structure Citation where
  generated_text : String
  span_start : Nat
  span_end : Nat
  ref_content : String
  ref_location : List (String × String)
  ref_metadata : Metadata
deriving DecidableEq, Repr

def create_citations_from_documents (docs : List DocResult)
    (generatedResponse : String) : List Citation :=
  docs.map fun doc =>
    { generated_text := generatedResponse, span_start := 0,
      span_end := generatedResponse.length, ref_content := doc.content,
      ref_location := doc.location,
      ref_metadata := sanitize_metadata doc.metadata }

/-- The fields of a Claude `invoke_model` response body that the source
reads. -/
structure ClaudeReply where
  text : String
  cache_creation_input_tokens : Int
  cache_read_input_tokens : Int
  input_tokens : Int
  output_tokens : Int
deriving DecidableEq, Repr

/-- Return value of `generate_with_claude_caching` (the wall-clock
`processing_time_seconds` metric is omitted). -/
structure GenResult where
  generated_response : String
  cached : Bool
  cache_creation_tokens : Int
  cache_read_tokens : Int
deriving DecidableEq, Repr

/-- `generate_with_claude_caching` (orchestration_api.py:403): invoke the
model (an exception propagates), report a cache hit when the reply shows
read tokens, and store the prompt artifact when no cached data was found. -/
def generate_with_claude_caching (query context systemPrompt cacheKey : String)
    (cachedPromptData : Option CacheEntry) (userId : String)
    (userGroups : List String) (cache : PromptCache) (now : Int)
    (claudeResponse : Except String ClaudeReply) :
    Except String (GenResult × PromptCache) :=
  match claudeResponse with
  | Except.error e => Except.error e
  | Except.ok reply =>
      let wasCached : Bool := decide (reply.cache_read_input_tokens > 0)
      let newCache :=
        match cachedPromptData with
        | none =>
            store_cached_prompt cache now cacheKey
              ⟨systemPrompt, reply.cache_creation_input_tokens, userGroups⟩
        | some _ => cache
      Except.ok
        ({ generated_response := reply.text, cached := wasCached,
           cache_creation_tokens := reply.cache_creation_input_tokens,
           cache_read_tokens := reply.cache_read_input_tokens }, newCache)

/-- Return shape of `retrieve_and_generate_with_caching`
(orchestration_api.py:279 and 312); the wall-clock `timestamp` and the
`cache_performance` metrics are omitted. -/
structure GenCachedOutput where
  rtype : String
  query : String
  generated_response : String
  citations : List Citation
  cached : Bool
deriving DecidableEq, Repr

/-- `retrieve_and_generate_with_caching` (orchestration_api.py:269): with no
surviving documents, return the fixed no-documents response without
touching the cache or the model; otherwise build the context, consult the
cache and invoke the model.  The second component counts generative-model
invocations; the cache is threaded explicitly. -/
def retrieve_and_generate_with_caching (query : String)
    (metadataFilters : List FilterCondition) (maxResults : Nat)
    (userId : String) (userGroups : List String)
    (bedrockResponse : Except String (List BedrockItem))
    (claudeResponse : Except String ClaudeReply)
    (cache : PromptCache) (ttlMinutes now : Int) :
    Except String (GenCachedOutput × PromptCache) × Nat :=
  match
    retrieve_documents query metadataFilters maxResults bedrockResponse with
  | Except.error e => (Except.error e, 0)
  | Except.ok documents =>
      if documents.results.isEmpty then
        (Except.ok
          ({ rtype := "retrieve_and_generate_cached", query := query,
             generated_response := noDocsMessage, citations := [],
             cached := false }, cache), 0)
      else
        let context := create_context_from_documents documents.results
        let systemPrompt := get_system_prompt_for_rag
        let cacheKey := generate_cache_key systemPrompt userGroups
        let gp := get_cached_prompt cache ttlMinutes now cacheKey
        match
          generate_with_claude_caching query context systemPrompt cacheKey
            gp.1 userId userGroups gp.2 now claudeResponse with
        | Except.error e => (Except.error e, 1)
        | Except.ok (gen, cache2) =>
            (Except.ok
              ({ rtype := "retrieve_and_generate_cached", query := query,
                 generated_response := gen.generated_response,
                 citations :=
                   create_citations_from_documents documents.results
                     gen.generated_response,
                 cached := gen.cached }, cache2), 1)

/-- Return shape of `retrieve_and_generate_with_caching_hybrid`
(orchestration_api.py:786 and 820): `source_info` is present only on the
populated path. -/
structure GenCachedHybridOutput where
  rtype : String
  query : String
  generated_response : String
  citations : List Citation
  sources_searched : List String
  source_info : Option (List (String × SourceInfoEntry))
  cached : Bool
deriving DecidableEq, Repr

/-- `retrieve_and_generate_with_caching_hybrid` (orchestration_api.py:777):
like the single-source variant but retrieving through the hybrid merger and
keying the cache on the hybrid prompt extended with the sorted source
list. -/
def retrieve_and_generate_with_caching_hybrid (cfg : HybridConfig)
    (query : String) (metadataFilters : List FilterCondition)
    (maxResults : Nat) (userId : String) (userGroups : List String)
    (searchSources : List String) (userToken : String)
    (bedrockResponse : Except String (List BedrockItem))
    (kendraResponse : Except String (List KendraItem))
    (claudeResponse : Except String ClaudeReply)
    (cache : PromptCache) (ttlMinutes now : Int) :
    Except String (GenCachedHybridOutput × PromptCache) × Nat :=
  match
    retrieve_documents_hybrid cfg query metadataFilters maxResults
      searchSources userToken userId userGroups bedrockResponse
      kendraResponse with
  | Except.error e => (Except.error e, 0)
  | Except.ok documents =>
      if documents.results.isEmpty then
        (Except.ok
          ({ rtype := "retrieve_and_generate_cached_hybrid", query := query,
             generated_response := noDocsMessage, citations := [],
             sources_searched := searchSources, source_info := none,
             cached := false }, cache), 0)
      else
        let context := create_context_from_hybrid_documents documents.results
        let systemPrompt := get_system_prompt_for_hybrid_rag
        let cacheKey :=
          generate_cache_key
            (systemPrompt ++ "|" ++
              String.intercalate "|" (sortedStrings searchSources))
            userGroups
        let gp := get_cached_prompt cache ttlMinutes now cacheKey
        match
          generate_with_claude_caching query context systemPrompt cacheKey
            gp.1 userId userGroups gp.2 now claudeResponse with
        | Except.error e => (Except.error e, 1)
        | Except.ok (gen, cache2) =>
            (Except.ok
              ({ rtype := "retrieve_and_generate_cached_hybrid",
                 query := query,
                 generated_response := gen.generated_response,
                 citations :=
                   create_citations_from_documents documents.results
                     gen.generated_response,
                 sources_searched := searchSources,
                 source_info := some documents.source_info,
                 cached := gen.cached }, cache2), 1)

/-! ## Request handler — `orchestration_api.py` -/

/-- One retrieved reference of a Bedrock `retrieve_and_generate` citation. -/
structure RagReference where
  content : String
  location : List (String × String)
  metadata : Metadata
deriving DecidableEq, Repr

/-- One citation of a Bedrock `retrieve_and_generate` response. -/
structure RagCitation where
  generatedResponsePart : String
  references : List RagReference
deriving DecidableEq, Repr

/-- The fields of a Bedrock `retrieve_and_generate` response that the source
reads. -/
structure RagResponse where
  outputText : String
  citations : List RagCitation
deriving DecidableEq, Repr

/-- Return shape of `retrieve_and_generate` (orchestration_api.py:257). -/
structure RagOutput where
  rtype : String
  query : String
  generated_response : String
  citations : List RagCitation
deriving DecidableEq, Repr

/-- `retrieve_and_generate` (orchestration_api.py:193): process the managed
RAG response, sanitising the metadata of every retrieved reference; a
backend exception propagates (orchestration_api.py:265-267). -/
def retrieve_and_generate (query : String)
    (metadataFilters : List FilterCondition) (maxResults : Nat)
    (ragResponse : Except String RagResponse) : Except String RagOutput :=
  match ragResponse with
  | Except.error e => Except.error e
  | Except.ok resp =>
      Except.ok
        { rtype := "retrieve_and_generate", query := query,
          generated_response := resp.outputText,
          citations := resp.citations.map fun c =>
            { generatedResponsePart := c.generatedResponsePart,
              references := c.references.map fun r =>
                { content := r.content, location := r.location,
                  metadata := sanitize_metadata r.metadata } } }

/-- The request fields read by `lambda_handler` (orchestration_api.py:47),
with the source's `.get` defaults applied except for `use_caching`, whose
absence falls back to the environment toggle.  The source key `type` is
rendered `rtype`. -/
structure RequestBody where
  query : String
  user_id : String
  user_groups : List String
  max_results : Nat
  rtype : String
  use_caching : Option Bool
deriving DecidableEq, Repr

inductive ResponsePayload where
  | errorMsg (msg : String)
  | retrieveData (out : RetrieveOutput)
  | ragData (out : RagOutput)
  | genCachedData (out : GenCachedOutput)
deriving DecidableEq, Repr

structure ApiResponse where
  statusCode : Nat
  payload : ResponsePayload
deriving DecidableEq, Repr

/-- Instrumentation (not part of the source): whether the access-control
filter was built, and how many retrieval-backend and generative-model calls
were attempted while handling the request. -/
structure HandlerTrace where
  filtersBuilt : Bool
  backendCalls : Nat
  modelCalls : Nat
deriving DecidableEq, Repr

/-- `lambda_handler` (orchestration_api.py:31): validate the query and the
identity signals, then build the access filter and dispatch on the request
type; any exception escaping the dispatch becomes a 500 error response
(orchestration_api.py:82-84).  The cache mutation performed by the cached
path is modelled inside `retrieve_and_generate_with_caching`; the handler
returns the API response and the instrumentation trace. -/
def lambda_handler (body : RequestBody) (enablePromptCaching : Bool)
    (bedrockResponse : Except String (List BedrockItem))
    (ragResponse : Except String RagResponse)
    (claudeResponse : Except String ClaudeReply)
    (cache : PromptCache) (ttlMinutes now : Int) :
    ApiResponse × HandlerTrace :=
  if body.query = "" then
    ({ statusCode := 400,
       payload := ResponsePayload.errorMsg "Query parameter is required" },
     { filtersBuilt := false, backendCalls := 0, modelCalls := 0 })
  else if body.user_id = "" ∧ body.user_groups = [] then
    ({ statusCode := 400,
       payload := ResponsePayload.errorMsg
         "Either user_id or user_groups must be provided" },
     { filtersBuilt := false, backendCalls := 0, modelCalls := 0 })
  else
    let metadataFilters :=
      build_access_control_filters body.user_id body.user_groups
    let useCaching := body.use_caching.getD enablePromptCaching
    if body.rtype = "retrieve_and_generate" then
      if useCaching then
        match
          retrieve_and_generate_with_caching body.query metadataFilters
            body.max_results body.user_id body.user_groups bedrockResponse
            claudeResponse cache ttlMinutes now with
        | (Except.error e, n) =>
            ({ statusCode := 500,
               payload :=
                 ResponsePayload.errorMsg ("Internal server error: " ++ e) },
             { filtersBuilt := true, backendCalls := 1, modelCalls := n })
        | (Except.ok (out, _), n) =>
            ({ statusCode := 200, payload := ResponsePayload.genCachedData out },
             { filtersBuilt := true, backendCalls := 1, modelCalls := n })
      else
        match
          retrieve_and_generate body.query metadataFilters body.max_results
            ragResponse with
        | Except.error e =>
            ({ statusCode := 500,
               payload :=
                 ResponsePayload.errorMsg ("Internal server error: " ++ e) },
             { filtersBuilt := true, backendCalls := 1, modelCalls := 1 })
        | Except.ok out =>
            ({ statusCode := 200, payload := ResponsePayload.ragData out },
             { filtersBuilt := true, backendCalls := 1, modelCalls := 1 })
    else
      match
        retrieve_documents body.query metadataFilters body.max_results
          bedrockResponse with
      | Except.error e =>
          ({ statusCode := 500,
             payload :=
               ResponsePayload.errorMsg ("Internal server error: " ++ e) },
           { filtersBuilt := true, backendCalls := 1, modelCalls := 0 })
      | Except.ok out =>
          ({ statusCode := 200, payload := ResponsePayload.retrieveData out },
           { filtersBuilt := true, backendCalls := 1, modelCalls := 0 })

/-! ## Theorems -/

lemma chunkWindows_flatten (l : List Nat) :
    ∀ n : Nat,
      ((List.range n).map fun ci =>
          (l.drop (ci * pages_per_chunk)).take
            (min ((ci + 1) * pages_per_chunk) l.length -
              ci * pages_per_chunk)).flatten =
        l.take (n * pages_per_chunk) := by
  intro n
  induction n with
  | zero => simp
  | succ n ih =>
      rw [List.range_succ, List.map_append, List.flatten_append, ih]
      simp only [List.map_cons, List.map_nil, List.flatten_cons,
        List.flatten_nil, List.append_nil]
      rw [Nat.succ_mul, List.take_add]
      congr 1
      rw [List.take_eq_take]
      simp only [List.length_drop, pages_per_chunk]
      omega

lemma split_pdf_flatten (l : List Nat) :
    (split_pdf_into_chunks l l.length).flatten = l := by
  unfold split_pdf_into_chunks
  rw [chunkWindows_flatten]
  exact List.take_of_length_le (by simp [pages_per_chunk]; omega)

lemma split_pdf_map_length (l : List Nat) :
    (split_pdf_into_chunks l l.length).map List.length =
      (List.range ((l.length + 19) / 20)).map
        fun i => min 20 (l.length - 20 * i) := by
  unfold split_pdf_into_chunks
  simp only [pages_per_chunk, List.map_map]
  apply List.map_congr_left
  intro i hi
  simp only [Function.comp_apply, List.length_take, List.length_drop]
  simp only [List.mem_range] at hi
  omega

/-- C9: a paginated document of at most 20 pages is not split; one of more
than 20 pages is split into `ceil(p/20)` consecutive page windows in
original page order whose sizes follow `min 20 (p - 20*i)` — 20 for every
window but possibly the last; in particular 45 pages yield windows of sizes
20/20/5. -/
theorem c9_pdf_page_chunking : ∀ pages : List Nat,
    (pages.length ≤ 20 → process_pdf_pages pages = [pages]) ∧
    (20 < pages.length →
      process_pdf_pages pages = split_pdf_into_chunks pages pages.length ∧
      (split_pdf_into_chunks pages pages.length).length =
        (pages.length + 19) / 20 ∧
      (split_pdf_into_chunks pages pages.length).flatten = pages ∧
      (split_pdf_into_chunks pages pages.length).map List.length =
        (List.range ((pages.length + 19) / 20)).map
          fun i => min 20 (pages.length - 20 * i)) ∧
    (pages.length = 45 →
      (split_pdf_into_chunks pages pages.length).map List.length =
        [20, 20, 5]) := by
  intro pages
  refine ⟨fun h => ?_, fun h => ⟨?_, ?_, split_pdf_flatten pages,
    split_pdf_map_length pages⟩, fun h45 => ?_⟩
  · unfold process_pdf_pages
    rw [if_neg (by omega)]
  · unfold process_pdf_pages
    rw [if_pos h]
  · unfold split_pdf_into_chunks
    simp [pages_per_chunk]
  · rw [split_pdf_map_length pages, h45]
    decide

theorem c9_pdf_page_chunking_witness :
    process_pdf_pages (List.range 45) =
      split_pdf_into_chunks (List.range 45) 45 ∧
    (split_pdf_into_chunks (List.range 45) 45).map List.length =
      [20, 20, 5] ∧
    process_pdf_pages (List.range 20) = [List.range 20] := by
  have h45 := c9_pdf_page_chunking (List.range 45)
  have h20 := c9_pdf_page_chunking (List.range 20)
  have hlen : (List.range 45).length = 45 := by simp
  refine ⟨?_, ?_, h20.1 (by simp)⟩
  · have := (h45.2.1 (by simp)).1
    rwa [hlen] at this
  · have := h45.2.2 hlen
    rwa [hlen] at this

/-- C2 (code bug): evaluated at a metadata mapping carrying the deny-list
fields the sync pipeline itself produces, both sanitisers return the
mapping with `denied_users` and `denied_groups` still present — only the
listed sensitive fields are stripped. -/
theorem c2_sanitizers_keep_denied_fields :
    sanitize_metadata
        [("denied_users", MetaVal.str "alice"),
         ("denied_groups", MetaVal.str "legal"),
         ("access_users", MetaVal.str "bob"),
         ("title", MetaVal.str "Q3 report")] =
      [("denied_users", MetaVal.str "alice"),
       ("denied_groups", MetaVal.str "legal"),
       ("title", MetaVal.str "Q3 report")] ∧
    sanitize_sharepoint_metadata
        [("denied_users", MetaVal.str "alice"),
         ("denied_groups", MetaVal.str "legal"),
         ("acl_users", MetaVal.str "bob")] =
      [("denied_users", MetaVal.str "alice"),
       ("denied_groups", MetaVal.str "legal")] := by
  decide

/-- C4 counterexample: the empty ACL has no principal holding a
full-control permission, yet the classifier returns `restricted` — the
first rule fires on the count bound alone, without requiring a full-control
principal to exist. -/
theorem c4_counterexample_restricted_without_full_control :
    determine_classification_from_acl_v2 emptyAclData = "restricted" ∧
    full_control_count emptyAclData = 0 ∧
    emptyAclData.allowed_users = [] := by
  decide

/-- C4 (amended): `restricted` holds exactly when the full-control principal
count is at most 2 and the allowed users number at most 3 — with no
requirement that a full-control principal exists; otherwise the remaining
rules apply in order exactly as claimed. -/
theorem c4_classification_rule_chain : ∀ acl : AclData,
    (determine_classification_from_acl_v2 acl = "restricted" ↔
      full_control_count acl ≤ 2 ∧ acl.allowed_users.length ≤ 3) ∧
    (¬ (full_control_count acl ≤ 2 ∧ acl.allowed_users.length ≤ 3) →
      (full_control_count acl ≤ 5 ∧ has_public_access acl = false →
        determine_classification_from_acl_v2 acl = "confidential") ∧
      (¬ (full_control_count acl ≤ 5 ∧ has_public_access acl = false) →
        (has_public_access acl = true →
          determine_classification_from_acl_v2 acl = "internal") ∧
        (has_public_access acl = false →
          (acl.allowed_groups.length ≤ 3 →
            determine_classification_from_acl_v2 acl = "confidential") ∧
          (3 < acl.allowed_groups.length →
            determine_classification_from_acl_v2 acl = "internal")))) := by
  intro acl
  unfold determine_classification_from_acl_v2
  split_ifs with h1 h2 h3 h4 <;> simp_all

/-- Three full-control principals, four allowed users, no public group:
exercises the second rule of the chain. -/
def c4WitnessAcl : AclData :=
  { allowed_users := ["u1", "u2", "u3", "u4"], allowed_groups := ["eng"],
    denied_users := [], denied_groups := [],
    permission_levels :=
      [("p1", ⟨["Full_Control"], "user", "allow", "direct"⟩),
       ("p2", ⟨["full_control"], "user", "allow", "direct"⟩),
       ("p3", ⟨["full_control", "read"], "group", "allow", "inherited"⟩)],
    inheritance_info := [] }

theorem c4_classification_rule_chain_witness :
    determine_classification_from_acl_v2 c4WitnessAcl = "confidential" :=
  ((c4_classification_rule_chain c4WitnessAcl).2 (by decide)).1 (by decide)

lemma processAclEntry_allowed_users (acc : AclData) (e : AclEntry) :
    (processAclEntry acc e).allowed_users =
      acc.allowed_users ++
        (if pyLower e.access = "allow" ∧ ¬ pyLower e.ptype = "group" then
          [e.principal] else []) := by
  unfold processAclEntry
  split_ifs <;> simp_all

lemma processAclEntry_allowed_groups (acc : AclData) (e : AclEntry) :
    (processAclEntry acc e).allowed_groups =
      acc.allowed_groups ++
        (if pyLower e.access = "allow" ∧ pyLower e.ptype = "group" then
          [e.principal] else []) := by
  unfold processAclEntry
  split_ifs <;> simp_all

lemma processAclEntry_denied_users (acc : AclData) (e : AclEntry) :
    (processAclEntry acc e).denied_users =
      acc.denied_users ++
        (if pyLower e.access = "deny" ∧ ¬ pyLower e.ptype = "group" then
          [e.principal] else []) := by
  unfold processAclEntry
  split_ifs <;> simp_all

lemma processAclEntry_denied_groups (acc : AclData) (e : AclEntry) :
    (processAclEntry acc e).denied_groups =
      acc.denied_groups ++
        (if pyLower e.access = "deny" ∧ pyLower e.ptype = "group" then
          [e.principal] else []) := by
  unfold processAclEntry
  split_ifs <;> simp_all

lemma processAclEntry_permission_levels (acc : AclData) (e : AclEntry) :
    (processAclEntry acc e).permission_levels =
      dictInsert acc.permission_levels e.principal
        ⟨e.permissions, e.ptype, e.access, e.inheritance⟩ := by
  unfold processAclEntry
  split_ifs <;> rfl

lemma processAclEntries_mem_field (f : AclData → List String)
    (cond : AclEntry → Prop) [DecidablePred cond]
    (hf : ∀ acc e, f (processAclEntry acc e) =
      f acc ++ (if cond e then [e.principal] else []))
    (entries : List (Option AclEntry)) :
    ∀ (acc : AclData) (p : String),
      p ∈ f (processAclEntries acc entries) ↔
        p ∈ f acc ∨
          ∃ e : AclEntry, some e ∈ entries ∧ e.principal = p ∧ cond e := by
  induction entries with
  | nil => simp [processAclEntries]
  | cons hd tl ih =>
      intro acc p
      cases hd with
      | none =>
          rw [processAclEntries, ih]
          simp
      | some e0 =>
          rw [processAclEntries, ih, hf]
          by_cases hc : cond e0
          · simp only [if_pos hc, List.mem_append, List.mem_cons,
              Option.some.injEq]
            constructor
            · rintro (⟨h | h | h⟩ | ⟨e, he, hp, hcnd⟩)
              · exact Or.inl h
              · exact Or.inr ⟨e0, Or.inl rfl, h.symm, hc⟩
              · exact absurd h (List.not_mem_nil p)
              · exact Or.inr ⟨e, Or.inr he, hp, hcnd⟩
            · rintro (h | ⟨e, he | he, hp, hcnd⟩)
              · exact Or.inl (Or.inl h)
              · subst he
                exact Or.inl (Or.inr (Or.inl hp.symm))
              · exact Or.inr ⟨e, he, hp, hcnd⟩
          · simp only [if_neg hc, List.append_nil, List.mem_cons,
              Option.some.injEq]
            constructor
            · rintro (h | ⟨e, he, hp, hcnd⟩)
              · exact Or.inl h
              · exact Or.inr ⟨e, Or.inr he, hp, hcnd⟩
            · rintro (h | ⟨e, he | he, hp, hcnd⟩)
              · exact Or.inl h
              · subst he
                exact absurd hcnd hc
              · exact Or.inr ⟨e, he, hp, hcnd⟩

lemma dictLookup_dictInsert_isSome {β : Type} (m : List (String × β))
    (k p : String) (v : β) :
    (dictLookup (dictInsert m k v) p).isSome = true ↔
      p = k ∨ (dictLookup m p).isSome = true := by
  induction m with
  | nil =>
      simp only [dictInsert, dictLookup]
      by_cases h : k = p <;> simp [h, eq_comm]
  | cons hd tl ih =>
      by_cases h1 : hd.1 = k
      · subst h1
        simp only [dictInsert, if_pos rfl, dictLookup]
        by_cases h2 : hd.1 = p
        · simp [h2]
        · have hpk : ¬ p = hd.1 := fun h => h2 h.symm
          simp [h2, hpk]
      · simp only [dictInsert, if_neg h1, dictLookup]
        by_cases h2 : hd.1 = p
        · simp [h2]
        · simp [h2, ih]

lemma processAclEntries_permission_keys (entries : List (Option AclEntry)) :
    ∀ (acc : AclData) (p : String),
      (dictLookup (processAclEntries acc entries).permission_levels
          p).isSome = true ↔
        (dictLookup acc.permission_levels p).isSome = true ∨
          ∃ e : AclEntry, some e ∈ entries ∧ e.principal = p := by
  induction entries with
  | nil => simp [processAclEntries]
  | cons hd tl ih =>
      intro acc p
      cases hd with
      | none =>
          rw [processAclEntries, ih]
          simp
      | some e0 =>
          rw [processAclEntries, ih, processAclEntry_permission_levels,
            dictLookup_dictInsert_isSome]
          constructor
          · rintro (⟨h | h⟩ | ⟨e, he, hp⟩)
            · exact Or.inr ⟨e0, List.mem_cons_self _ _, h.symm⟩
            · exact Or.inl h
            · exact Or.inr ⟨e, List.mem_cons_of_mem _ he, hp⟩
          · rintro (h | ⟨e, he, hp⟩)
            · exact Or.inl (Or.inr h)
            · rcases List.mem_cons.mp he with he0 | hetl
              · exact Or.inl (Or.inl (by rw [Option.some.injEq] at he0; rw [he0] at hp; exact hp.symm))
              · exact Or.inr ⟨e, hetl, hp⟩

/-- C10: principals of well-formed structured ACL entries are categorised by
access and principal type — every non-`group` type (including `role` and
unrecognised values) lands in a user set, the group sets contain only
principals of `group`-typed entries, an entry whose access is neither
`allow` nor `deny` populates none of the four sets, and every well-formed
entry is recorded in `permission_levels`. -/
theorem c10_acl_normalizer_categorisation :
    ∀ (entries : List (Option AclEntry)) (p : String),
      (p ∈ (parse_sharepoint_acl_v2 entries).allowed_users ↔
        ∃ e : AclEntry, some e ∈ entries ∧ e.principal = p ∧
          pyLower e.access = "allow" ∧ ¬ pyLower e.ptype = "group") ∧
      (p ∈ (parse_sharepoint_acl_v2 entries).allowed_groups ↔
        ∃ e : AclEntry, some e ∈ entries ∧ e.principal = p ∧
          pyLower e.access = "allow" ∧ pyLower e.ptype = "group") ∧
      (p ∈ (parse_sharepoint_acl_v2 entries).denied_users ↔
        ∃ e : AclEntry, some e ∈ entries ∧ e.principal = p ∧
          pyLower e.access = "deny" ∧ ¬ pyLower e.ptype = "group") ∧
      (p ∈ (parse_sharepoint_acl_v2 entries).denied_groups ↔
        ∃ e : AclEntry, some e ∈ entries ∧ e.principal = p ∧
          pyLower e.access = "deny" ∧ pyLower e.ptype = "group") ∧
      ((dictLookup (parse_sharepoint_acl_v2 entries).permission_levels
          p).isSome = true ↔
        ∃ e : AclEntry, some e ∈ entries ∧ e.principal = p) := by
  intro entries p
  simp only [parse_sharepoint_acl_v2]
  refine ⟨?_, ?_, ?_, ?_, ?_⟩
  · rw [List.mem_dedup, processAclEntries_mem_field AclData.allowed_users
      (fun e => pyLower e.access = "allow" ∧ ¬ pyLower e.ptype = "group")
      processAclEntry_allowed_users entries emptyAclData p]
    simp [emptyAclData]
  · rw [List.mem_dedup, processAclEntries_mem_field AclData.allowed_groups
      (fun e => pyLower e.access = "allow" ∧ pyLower e.ptype = "group")
      processAclEntry_allowed_groups entries emptyAclData p]
    simp [emptyAclData]
  · rw [List.mem_dedup, processAclEntries_mem_field AclData.denied_users
      (fun e => pyLower e.access = "deny" ∧ ¬ pyLower e.ptype = "group")
      processAclEntry_denied_users entries emptyAclData p]
    simp [emptyAclData]
  · rw [List.mem_dedup, processAclEntries_mem_field AclData.denied_groups
      (fun e => pyLower e.access = "deny" ∧ pyLower e.ptype = "group")
      processAclEntry_denied_groups entries emptyAclData p]
    simp [emptyAclData]
  · rw [processAclEntries_permission_keys entries emptyAclData p]
    simp [emptyAclData, dictLookup]

theorem c10_acl_normalizer_categorisation_witness :
    "svc-role" ∈
      (parse_sharepoint_acl_v2
          [some ⟨"svc-role", "role", ["read"], "allow", "direct"⟩,
           some ⟨"aud", "user", ["read"], "audit", "direct"⟩]).allowed_users ∧
    (dictLookup
        (parse_sharepoint_acl_v2
            [some ⟨"svc-role", "role", ["read"], "allow", "direct"⟩,
             some ⟨"aud", "user", ["read"], "audit", "direct"⟩]).permission_levels
        "aud").isSome = true := by
  refine ⟨?_, ?_⟩
  · exact (c10_acl_normalizer_categorisation _ "svc-role").1.mpr
      ⟨⟨"svc-role", "role", ["read"], "allow", "direct"⟩, by simp, rfl,
        by decide, by decide⟩
  · exact (c10_acl_normalizer_categorisation _ "aud").2.2.2.2.mpr
      ⟨⟨"aud", "user", ["read"], "audit", "direct"⟩, by simp, rfl⟩

/-- A SharePoint-backend result whose ACL metadata denies `alice` by id,
while also carrying an allow condition for her group `finance`. -/
def c1DeniedItem : KendraItem :=
  { excerptText := "Q3 layoff plan details", titleText := "Layoff Plan",
    uri := "https://sp.example.com/sites/hr/layoffs", id := "doc-1",
    itemType := "DOCUMENT", format := "HTML", scoreConfidence := 90,
    attributes :=
      [("denied_users", MetaVal.str "alice"),
       ("access_groups", MetaVal.str "finance")] }

def c1Config : HybridConfig :=
  { knowledgeBaseId := none, enableSharepointSearch := true,
    kendraIndexId := some "kendra-index" }

/-- The document as it comes out of the merger: deny metadata intact. -/
def c1MergedDoc : DocResult :=
  { content := "Q3 layoff plan details", score := mkRat 90 100,
    location := [("uri", "https://sp.example.com/sites/hr/layoffs"),
                 ("title", "Layoff Plan"), ("id", "doc-1")],
    metadata := [("denied_users", MetaVal.str "alice"),
                 ("access_groups", MetaVal.str "finance"),
                 ("sharepoint_type", MetaVal.str "DOCUMENT"),
                 ("sharepoint_format", MetaVal.str "HTML"),
                 ("last_modified", MetaVal.str ""),
                 ("author", MetaVal.str ""),
                 ("title", MetaVal.str "Layoff Plan")],
    source := "sharepoint", sourceType := "sharepoint_pages" }

/-- C1 (code bug): for caller `alice` (groups `[finance]`), a backend result
whose metadata lists `alice` in `denied_users` is returned unchanged in the
merged result set — the merger applies no deny filtering whatsoever (its
`userId`/`userGroups` parameters are never consulted), so deny never
overrides allow. -/
theorem c1_merger_returns_denied_document :
    retrieve_documents_hybrid c1Config "layoffs" [] 10 ["sharepoint"] ""
        "alice" ["finance"] (Except.ok []) (Except.ok [c1DeniedItem]) =
      Except.ok
        { rtype := "retrieve_hybrid", query := "layoffs",
          results := [c1MergedDoc], total_results := 1,
          sources_searched := ["sharepoint"],
          source_info := [("sharepoint", ⟨1, "kendra_acl_filtered"⟩)] } ∧
    dictLookup c1MergedDoc.metadata "denied_users" =
      some (MetaVal.str "alice") ∧
    dictLookup c1MergedDoc.metadata "access_groups" =
      some (MetaVal.str "finance") := by
  refine ⟨by decide, by decide, by decide⟩

def c5Config : HybridConfig :=
  { knowledgeBaseId := some "kb", enableSharepointSearch := false,
    kendraIndexId := none }

def c5DupItem : BedrockItem :=
  { contentText := "duplicated snippet", score := mkRat 1 2,
    location := [("s3Location.uri", "s3://bucket/doc.pdf")],
    metadata := [("title", MetaVal.str "Doc")] }

def c5DupDoc : DocResult :=
  { content := "duplicated snippet", score := mkRat 1 2,
    location := [("s3Location.uri", "s3://bucket/doc.pdf")],
    metadata := [("title", MetaVal.str "Doc")],
    source := "bedrock", sourceType := "pdf_documents" }

/-- C5 counterexample: duplicates are not removed — a backend result list
containing the same document twice yields a merged result set containing it
twice (the merger performs no deduplication at all). -/
theorem c5_counterexample_no_deduplication :
    retrieve_documents_hybrid c5Config "q" [] 10 ["bedrock"] "" "bob" ["eng"]
        (Except.ok [c5DupItem, c5DupItem]) (Except.ok []) =
      Except.ok
        { rtype := "retrieve_hybrid", query := "q",
          results := [c5DupDoc, c5DupDoc], total_results := 2,
          sources_searched := ["bedrock"],
          source_info := [("bedrock", ⟨2, "vector_semantic"⟩)] } ∧
    List.count c5DupDoc [c5DupDoc, c5DupDoc] = 2 := by
  refine ⟨by decide, by decide⟩

/-- C5 (amended): whenever the hybrid retrieval succeeds, its result list is
exactly the stably score-descending-sorted candidate concatenation
truncated to the limit — a permutation of the candidates is sorted (so
nothing is deduplicated or dropped before truncation), the order is
descending by score, and equal-score pairs keep their backend-arrival
order. -/
theorem c5_merger_sorts_and_truncates_without_dedup :
    ∀ (cfg : HybridConfig) (query : String) (f : List FilterCondition)
      (maxResults : Nat) (sources : List String) (tok uid : String)
      (gs : List String) (bResp : Except String (List BedrockItem))
      (kResp : Except String (List KendraItem)) (out : HybridOutput),
      retrieve_documents_hybrid cfg query f maxResults sources tok uid gs
          bResp kResp = Except.ok out →
      ∃ allResults sourceInfo,
        hybridParts cfg query f maxResults sources tok uid gs bResp kResp =
          Except.ok (allResults, sourceInfo) ∧
        out.results = (allResults.insertionSort scoreDesc).take maxResults ∧
        (allResults.insertionSort scoreDesc).Perm allResults ∧
        (allResults.insertionSort scoreDesc).Pairwise scoreDesc ∧
        (∀ a b : DocResult, List.Sublist [a, b] allResults → scoreDesc a b →
          List.Sublist [a, b] (allResults.insertionSort scoreDesc)) := by
  intro cfg query f maxResults sources tok uid gs bResp kResp out h
  unfold retrieve_documents_hybrid at h
  rcases hp : hybridParts cfg query f maxResults sources tok uid gs bResp
      kResp with e | ⟨allResults, sourceInfo⟩ <;> rw [hp] at h
  · exact absurd h (by simp)
  · refine ⟨allResults, sourceInfo, rfl, ?_, List.perm_insertionSort _ _,
      List.sorted_insertionSort _ _, fun a b hab hr =>
        List.pair_sublist_insertionSort hr hab⟩
    simp only [Except.ok.injEq] at h
    rw [← h]

theorem c5_merger_sorts_and_truncates_without_dedup_witness :
    ∃ allResults sourceInfo,
      hybridParts c5Config "q" [] 2 ["bedrock"] "" "bob" ["eng"]
          (Except.ok
            [{ contentText := "low relevance", score := mkRat 1 2,
               location := [("s3Location.uri", "s3://bucket/low.pdf")],
               metadata := [("title", MetaVal.str "Low")] },
             { contentText := "high relevance", score := mkRat 9 10,
               location := [("s3Location.uri", "s3://bucket/high.pdf")],
               metadata := [("title", MetaVal.str "High")] }])
          (Except.ok []) =
        Except.ok (allResults, sourceInfo) ∧
      ({ rtype := "retrieve_hybrid", query := "q",
         results :=
           [{ content := "high relevance", score := mkRat 9 10,
              location := [("s3Location.uri", "s3://bucket/high.pdf")],
              metadata := [("title", MetaVal.str "High")],
              source := "bedrock", sourceType := "pdf_documents" },
            { content := "low relevance", score := mkRat 1 2,
              location := [("s3Location.uri", "s3://bucket/low.pdf")],
              metadata := [("title", MetaVal.str "Low")],
              source := "bedrock", sourceType := "pdf_documents" }],
         total_results := 2, sources_searched := ["bedrock"],
         source_info := [("bedrock", ⟨2, "vector_semantic"⟩)] } :
        HybridOutput).results =
        (allResults.insertionSort scoreDesc).take 2 ∧
      (allResults.insertionSort scoreDesc).Perm allResults ∧
      (allResults.insertionSort scoreDesc).Pairwise scoreDesc ∧
      (∀ a b : DocResult, List.Sublist [a, b] allResults → scoreDesc a b →
        List.Sublist [a, b] (allResults.insertionSort scoreDesc)) :=
  c5_merger_sorts_and_truncates_without_dedup c5Config "q" [] 2 ["bedrock"]
    "" "bob" ["eng"] _ (Except.ok []) _ (by decide)

def c6Config : HybridConfig :=
  { knowledgeBaseId := some "kb", enableSharepointSearch := true,
    kendraIndexId := some "kendra-index" }

def c6SPConfig : HybridConfig :=
  { knowledgeBaseId := none, enableSharepointSearch := true,
    kendraIndexId := some "kendra-index" }

/-- C6 counterexample: the claim fails for the Bedrock adapter —
`retrieve_documents` re-raises a backend failure instead of returning empty
results, the exception propagates through the merger and fails the whole
hybrid retrieval (and with it the generate request), even when another
backend was also requested. -/
theorem c6_counterexample_bedrock_failure_fails_request :
    retrieve_documents "q" [] 10 (Except.error "boom") =
      Except.error "boom" ∧
    retrieve_documents_hybrid c6Config "q" [] 10 ["bedrock", "sharepoint"]
        "" "u" ["g"] (Except.error "boom") (Except.ok []) =
      Except.error "boom" ∧
    (retrieve_and_generate_with_caching "q" [] 10 "u" ["g"]
        (Except.error "boom") (Except.ok ⟨"text", 0, 0, 0, 0⟩) [] 60 0).1 =
      Except.error "boom" := by
  refine ⟨rfl, by decide, rfl⟩

/-- C6 (amended): the SharePoint adapter recovers locally — a Kendra
backend failure yields empty results plus an error annotation and no
exception; when only the SharePoint backend is searched and it fails, the
request completes with an empty merged result set and the fixed
no-authorized-documents response, making zero generative-model calls.  The
Bedrock adapter, by contrast, propagates its failure (see the
counterexample). -/
theorem c6_sharepoint_failure_recovered_locally :
    ∀ (e query userToken : String) (maxResults : Nat) (userId : String)
      (userGroups : List String) (f : List FilterCondition)
      (bResp : Except String (List BedrockItem))
      (claudeResponse : Except String ClaudeReply) (cache : PromptCache)
      (ttlMinutes now : Int),
      search_kendra_sharepoint query userToken maxResults userId userGroups
          (Except.error e) =
        { results := [], total_results := 0, error := some e } ∧
      retrieve_documents_hybrid c6SPConfig query f maxResults ["sharepoint"]
          userToken userId userGroups bResp (Except.error e) =
        Except.ok
          { rtype := "retrieve_hybrid", query := query, results := [],
            total_results := 0, sources_searched := ["sharepoint"],
            source_info := [("sharepoint", ⟨0, "kendra_acl_filtered"⟩)] } ∧
      retrieve_and_generate_with_caching_hybrid c6SPConfig query f maxResults
          userId userGroups ["sharepoint"] userToken bResp (Except.error e)
          claudeResponse cache ttlMinutes now =
        (Except.ok
          ({ rtype := "retrieve_and_generate_cached_hybrid", query := query,
             generated_response := noDocsMessage, citations := [],
             sources_searched := ["sharepoint"], source_info := none,
             cached := false }, cache), 0) := by
  intro e query userToken maxResults userId userGroups f bResp claudeResponse
    cache ttlMinutes now
  have h2 :
      retrieve_documents_hybrid c6SPConfig query f maxResults ["sharepoint"]
          userToken userId userGroups bResp (Except.error e) =
        Except.ok
          { rtype := "retrieve_hybrid", query := query, results := [],
            total_results := 0, sources_searched := ["sharepoint"],
            source_info := [("sharepoint", ⟨0, "kendra_acl_filtered"⟩)] } := by
    unfold retrieve_documents_hybrid hybridParts
    simp [bedrockActive, sharepointActive, c6SPConfig, tagResults,
      search_kendra_sharepoint]
  refine ⟨rfl, h2, ?_⟩
  unfold retrieve_and_generate_with_caching_hybrid
  rw [h2]
  simp

/-- C8: when zero documents survive retrieval, the cached answer generator
returns the fixed no-relevant-authorized-documents message with an empty
citations list, leaves the cache untouched and makes zero generative-model
calls. -/
theorem c8_no_documents_fixed_response :
    ∀ (query : String) (f : List FilterCondition) (maxResults : Nat)
      (userId : String) (userGroups : List String)
      (bResp : Except String (List BedrockItem))
      (claudeResponse : Except String ClaudeReply) (cache : PromptCache)
      (ttlMinutes now : Int) (docs : RetrieveOutput),
      retrieve_documents query f maxResults bResp = Except.ok docs →
      docs.results = [] →
      retrieve_and_generate_with_caching query f maxResults userId
          userGroups bResp claudeResponse cache ttlMinutes now =
        (Except.ok
          ({ rtype := "retrieve_and_generate_cached", query := query,
             generated_response := noDocsMessage, citations := [],
             cached := false }, cache), 0) := by
  intro query f maxResults userId userGroups bResp claudeResponse cache
    ttlMinutes now docs h hres
  unfold retrieve_and_generate_with_caching
  rw [h]
  simp [hres]

theorem c8_no_documents_fixed_response_witness :
    retrieve_and_generate_with_caching "q" [] 5 "u" ["g"] (Except.ok [])
        (Except.ok ⟨"ignored", 0, 0, 0, 0⟩) [] 60 0 =
      (Except.ok
        ({ rtype := "retrieve_and_generate_cached", query := "q",
           generated_response := noDocsMessage, citations := [],
           cached := false }, []), 0) :=
  c8_no_documents_fixed_response "q" [] 5 "u" ["g"] (Except.ok [])
    (Except.ok ⟨"ignored", 0, 0, 0, 0⟩) [] 60 0
    { rtype := "retrieve", query := "q", results := [], total_results := 0 }
    (by decide) rfl

/-- C7: a request with a non-empty query but neither a user id nor groups is
rejected with a 400 client error before the access predicate is built and
before any backend or model call; moreover 400 arises exactly from the two
validations (missing query, missing both identity signals) — every other
path returns 200 or 500. -/
theorem c7_empty_identity_rejected_before_backends :
    ∀ (body : RequestBody) (epc : Bool)
      (bResp : Except String (List BedrockItem))
      (ragResp : Except String RagResponse)
      (claudeResponse : Except String ClaudeReply) (cache : PromptCache)
      (ttlMinutes now : Int),
      ((lambda_handler body epc bResp ragResp claudeResponse cache ttlMinutes
            now).1.statusCode = 400 ↔
        body.query = "" ∨ (body.user_id = "" ∧ body.user_groups = [])) ∧
      (¬ body.query = "" → body.user_id = "" → body.user_groups = [] →
        lambda_handler body epc bResp ragResp claudeResponse cache ttlMinutes
            now =
          ({ statusCode := 400,
             payload := ResponsePayload.errorMsg
               "Either user_id or user_groups must be provided" },
           { filtersBuilt := false, backendCalls := 0, modelCalls := 0 })) := by
  intro body epc bResp ragResp claudeResponse cache ttlMinutes now
  constructor
  · unfold lambda_handler
    by_cases hq : body.query = ""
    · simp [hq]
    · by_cases hu : body.user_id = "" ∧ body.user_groups = []
      · simp [hq, hu]
      · have hfalse : ¬ (body.query = "" ∨
            (body.user_id = "" ∧ body.user_groups = [])) := by tauto
        simp only [if_neg hq, if_neg hu, iff_false_intro hfalse, iff_false]
        split_ifs <;> (try split) <;> simp
  · intro hq hu hg
    unfold lambda_handler
    rw [if_neg hq, if_pos ⟨hu, hg⟩]

theorem c7_empty_identity_rejected_before_backends_witness :
    lambda_handler
        { query := "quarterly revenue", user_id := "", user_groups := [],
          max_results := 10, rtype := "retrieve", use_caching := none }
        true (Except.ok []) (Except.ok ⟨"t", []⟩) (Except.ok ⟨"t", 0, 0, 0, 0⟩)
        [] 60 0 =
      ({ statusCode := 400,
         payload := ResponsePayload.errorMsg
           "Either user_id or user_groups must be provided" },
       { filtersBuilt := false, backendCalls := 0, modelCalls := 0 }) :=
  (c7_empty_identity_rejected_before_backends
      { query := "quarterly revenue", user_id := "", user_groups := [],
        max_results := 10, rtype := "retrieve", use_caching := none }
      true (Except.ok []) (Except.ok ⟨"t", []⟩) (Except.ok ⟨"t", 0, 0, 0, 0⟩)
      [] 60 0).2 (by decide) rfl rfl

lemma dictLookup_not_mem {β : Type} (m : List (String × β)) (k : String)
    (h : k ∉ m.map Prod.fst) : dictLookup m k = none := by
  induction m with
  | nil => rfl
  | cons hd tl ih =>
      simp only [List.map_cons, List.mem_cons] at h
      push_neg at h
      rw [dictLookup, if_neg (fun he => h.1 he.symm)]
      exact ih h.2

lemma dictLookup_dictInsert_self {β : Type} (m : List (String × β))
    (k : String) (v : β) : dictLookup (dictInsert m k v) k = some v := by
  induction m with
  | nil => simp [dictInsert, dictLookup]
  | cons hd tl ih =>
      by_cases h : hd.1 = k
      · simp [dictInsert, dictLookup, h]
      · simp only [dictInsert, if_neg h, dictLookup, if_neg h]
        exact ih

lemma dictLookup_dictErase_dictInsert {β : Type} (m : List (String × β))
    (k : String) (v : β) (h : (m.map Prod.fst).Nodup) :
    dictLookup (dictErase (dictInsert m k v) k) k = none := by
  induction m with
  | nil => simp [dictInsert, dictErase, dictLookup]
  | cons hd tl ih =>
      simp only [List.map_cons, List.nodup_cons] at h
      by_cases h1 : hd.1 = k
      · simp only [dictInsert, if_pos h1, dictErase, if_pos h1]
        exact dictLookup_not_mem tl k (h1 ▸ h.1)
      · simp only [dictInsert, if_neg h1, dictErase, if_neg h1, dictLookup,
          if_neg h1]
        exact ih h.2

/-- C3 counterexample: two disjoint group lists whose sorted bar-join
renderings coincide — `["a|b"]` versus `["a", "b"]` — produce identical
pre-hash content and therefore the same cache key, so these two callers do
observe each other's cache entries despite sharing no group. -/
theorem c3_counterexample_cache_key_collision :
    generate_cache_key get_system_prompt_for_rag ["a|b"] =
      generate_cache_key get_system_prompt_for_rag ["a", "b"] ∧
    (["a|b"] : List String).any
        (fun g => (["a", "b"] : List String).contains g) = false := by
  refine ⟨?_, by decide⟩
  unfold generate_cache_key
  exact congrArg
    (fun s => (sha256hex (get_system_prompt_for_rag ++ "|" ++ s)).take 16)
    (by decide)

/-- C3 (amended): the cache key is a function of the prompt template and the
sorted bar-joined group list only — equal joined renderings give equal keys
(even for disjoint group lists, see the counterexample); for a fixed key, a
get within the TTL window after a put returns the stored entry, while a get
after the TTL has elapsed returns nothing and removes the entry (lazy
eviction). -/
theorem c3_cache_key_content_and_ttl :
    ∀ (prompt : String) (g1 g2 : List String) (cache : PromptCache)
      (ttlMinutes now t : Int) (key : String) (payload : CachePayload),
      (String.intercalate "|" (sortedStrings g1) =
          String.intercalate "|" (sortedStrings g2) →
        generate_cache_key prompt g1 = generate_cache_key prompt g2) ∧
      (now - t < ttlMinutes * 60 →
        (get_cached_prompt (store_cached_prompt cache t key payload)
              ttlMinutes now key).1 =
          some { payload := payload, timestamp := t }) ∧
      ((cache.map Prod.fst).Nodup → ttlMinutes * 60 ≤ now - t →
        (get_cached_prompt (store_cached_prompt cache t key payload)
              ttlMinutes now key).1 = none ∧
        dictLookup
            (get_cached_prompt (store_cached_prompt cache t key payload)
              ttlMinutes now key).2 key = none) := by
  intro prompt g1 g2 cache ttlMinutes now t key payload
  refine ⟨fun hjoin => ?_, fun hlt => ?_, fun hnodup hge => ?_⟩
  · unfold generate_cache_key
    rw [hjoin]
  · unfold get_cached_prompt store_cached_prompt
    rw [dictLookup_dictInsert_self]
    simp only [if_pos hlt]
  · unfold get_cached_prompt store_cached_prompt
    rw [dictLookup_dictInsert_self]
    dsimp only
    rw [if_neg (by omega)]
    exact ⟨rfl, dictLookup_dictErase_dictInsert cache key _ hnodup⟩

theorem c3_cache_key_content_and_ttl_witness :
    generate_cache_key "p" ["a|b"] = generate_cache_key "p" ["a", "b"] ∧
    (get_cached_prompt
          (store_cached_prompt [] 0 "k" ⟨"p", 0, ["g"]⟩) 60 10 "k").1 =
      some { payload := ⟨"p", 0, ["g"]⟩, timestamp := 0 } ∧
    (get_cached_prompt
          (store_cached_prompt [] 0 "k" ⟨"p", 0, ["g"]⟩) 60 3600 "k").1 =
      none ∧
    dictLookup
        (get_cached_prompt
          (store_cached_prompt [] 0 "k" ⟨"p", 0, ["g"]⟩) 60 3600 "k").2
        "k" = none := by
  refine ⟨?_, ?_, ?_, ?_⟩
  · exact (c3_cache_key_content_and_ttl "p" ["a|b"] ["a", "b"] [] 60 10 0 "k"
      ⟨"p", 0, ["g"]⟩).1 (by decide)
  · exact (c3_cache_key_content_and_ttl "p" [] [] [] 60 10 0 "k"
      ⟨"p", 0, ["g"]⟩).2.1 (by decide)
  · exact ((c3_cache_key_content_and_ttl "p" [] [] [] 60 3600 0 "k"
      ⟨"p", 0, ["g"]⟩).2.2 (by decide) (by decide)).1
  · exact ((c3_cache_key_content_and_ttl "p" [] [] [] 60 3600 0 "k"
      ⟨"p", 0, ["g"]⟩).2.2 (by decide) (by decide)).2
